import Mathlib

set_option maxRecDepth 20000

/-!
Shallow embedding of the repo-card renderer (src/cards/repo.js) of
github-readme-stats-plus, together with models of the common helper modules
the renderer imports (Card, color resolution, text formatting, html
escaping, icons, i18n, flex layout).  Those helper modules are not part of
the given sources; each such definition carries a doc comment starting with
"Modelled from the spec:" and is kept faithful to the specification text.
-/

/-- Checks whether the pattern occurs at the head of the character list. -/
def matchAt : List Char → List Char → Bool
  | [], _ => true
  | _ :: _, [] => false
  | a :: as, b :: bs => a == b && matchAt as bs

/-- Decidable scan for an occurrence of the pattern anywhere in the list. -/
def containsSubL (pat : List Char) : List Char → Bool
  | [] => matchAt pat []
  | c :: cs => matchAt pat (c :: cs) || containsSubL pat cs

/-- Decidable substring check used to state containment properties of
rendered markup. -/
def containsSub (pat s : String) : Bool := containsSubL pat.data s.data

/-- Decidable suffix check on strings. -/
def strEndsWith (s suffix : String) : Bool :=
  matchAt suffix.data.reverse s.data.reverse

/-- Tail-recursive boolean equality of character lists, evaluable on large
rendered documents. -/
def listEqB : List Char → List Char → Bool
  | [], [] => true
  | a :: as, b :: bs => a == b && listEqB as bs
  | _, _ => false

/-- Boolean string equality through listEqB. -/
def strEqB (s t : String) : Bool := listEqB s.data t.data

/-- Exact fraction arithmetic standing in for JavaScript's numbers in the
renderer: a numerator and a positive denominator, normalized by every
operation.  (The source computes these values over IEEE doubles; the exact
decorative coordinate text is approximated by rationals.) -/
structure Q where
  num : Int := 0
  den : Int := 1
deriving DecidableEq, Repr

/-- Normalizes a fraction: positive denominator, reduced by the gcd. -/
def Q.norm (a : Q) : Q :=
  let s : Int := if a.den < 0 then -1 else 1
  let n := s * a.num
  let d := s * a.den
  let g : Int := Int.gcd n d
  if g = 0 then { num := 0, den := 1 } else { num := n / g, den := d / g }

/-- Fraction addition. -/
def Q.add (a b : Q) : Q :=
  Q.norm { num := a.num * b.den + b.num * a.den, den := a.den * b.den }

/-- Fraction negation. -/
def Q.neg (a : Q) : Q := { num := -a.num, den := a.den }

/-- Fraction subtraction. -/
def Q.sub (a b : Q) : Q := Q.add a (Q.neg b)

/-- Fraction multiplication. -/
def Q.mul (a b : Q) : Q := Q.norm { num := a.num * b.num, den := a.den * b.den }

/-- Fraction division. -/
def Q.div (a b : Q) : Q := Q.norm { num := a.num * b.den, den := a.den * b.num }

/-- Floor of a fraction, the source's Math.floor. -/
def Q.floorInt (a : Q) : Int := a.num.fdiv a.den

/-- Renders a fraction as text for embedding in markup. -/
def Q.toStr (a : Q) : String :=
  if a.den = 1 then toString a.num else toString a.num ++ "/" ++ toString a.den

instance : Add Q := ⟨Q.add⟩

instance : Sub Q := ⟨Q.sub⟩

instance : Neg Q := ⟨Q.neg⟩

instance : Mul Q := ⟨Q.mul⟩

instance : Div Q := ⟨Q.div⟩

instance (n : Nat) : OfNat Q n := ⟨{ num := n, den := 1 }⟩

instance : NatCast Q := ⟨fun n => { num := n, den := 1 }⟩

instance : IntCast Q := ⟨fun n => { num := n, den := 1 }⟩

instance : ToString Q := ⟨Q.toStr⟩

/-- Fraction powers, used by the Taylor approximations. -/
def Q.pow (a : Q) : Nat → Q
  | 0 => 1
  | n + 1 => Q.pow a n * a

instance : Pow Q Nat := ⟨Q.pow⟩


/-- Modelled from the spec: all dynamic text must be HTML/XML-entity-escaped
before embedding (common/html.js encodeHTML is not under the given sources).
The three XML-significant characters are replaced by entities. -/
def encodeChar (c : Char) : String :=
  if c = '&' then "&amp;"
  else if c = '<' then "&lt;"
  else if c = '>' then "&gt;"
  else String.singleton c

/-- Modelled from the spec: HTML/XML entity escaping of a whole string. -/
def encodeHTML (s : String) : String := String.join (s.data.map encodeChar)

/-- Modelled from the spec: option values are clamped into a closed range
(common/ops.js clampValue is not under the given sources). -/
def clampValue (n lo hi : Int) : Int := max lo (min n hi)

/-- Modelled from the spec: the spec does not describe emoji substitution
(common/ops.js parseEmojis is not under the given sources); modelled as the
identity on text, which preserves every property stated here. -/
def parseEmojis (s : String) : String := s

/-- Modelled from the spec: kilo-formatter; values at least 1000 render as
one decimal digit plus a k suffix with a trailing .0 trimmed, otherwise the
literal integer (common/fmt.js kFormatter is not under the given sources). -/
def kFormatter (n : Nat) : String :=
  if 1000 ≤ n then
    let tenths := (n + 50) / 100
    if tenths % 10 = 0 then toString (tenths / 10) ++ "k"
    else toString (tenths / 10) ++ "." ++ toString (tenths % 10) ++ "k"
  else toString n

/-- Modelled from the spec and JavaScript number semantics: the renderer
passes a possibly-missing count straight into the kilo-formatter; a missing
JavaScript number propagates as NaN through the arithmetic and prints as
the string NaN rather than as a zero count. -/
def kFormatterOpt : Option Nat → String
  | some n => kFormatter n
  | none => "NaN"

/-- Modelled from the spec: greedy accumulation of whitespace-separated
tokens onto lines of a bounded character width; a single over-long token is
placed alone on its line without mid-word splitting. -/
def wrapGreedy (width : Nat) (acc : List String) : List String → List String
  | [] => acc.reverse
  | tok :: toks =>
    match acc with
    | [] => wrapGreedy width [tok] toks
    | cur :: rest =>
      if cur.length + 1 + tok.length ≤ width then
        wrapGreedy width ((cur ++ " " ++ tok) :: rest) toks
      else
        wrapGreedy width (tok :: cur :: rest) toks

/-- Appends the ellipsis marker to the final line of a line list. -/
def appendEllipsisLast : List String → List String
  | [] => []
  | [l] => [l ++ "..."]
  | l :: ls => l :: appendEllipsisLast ls

/-- Whitespace characters at which description text is tokenized. -/
def isSpaceChar (c : Char) : Bool :=
  c == ' ' || c == '\n' || c == '\t' || c == '\r'

/-- Splits a character list at separators into string pieces, keeping empty
pieces, as the source's whitespace split does. -/
def splitTokens (p : Char → Bool) (cur : List Char) : List Char → List String
  | [] => [String.mk cur.reverse]
  | c :: cs =>
    if p c then String.mk cur.reverse :: splitTokens p [] cs
    else splitTokens p (c :: cur) cs

/-- Modelled from the spec: wrap a string into at most maxLines lines of at
most width characters by greedy word wrap, truncating to maxLines lines and
appending an ellipsis marker to the last line when the input overflows
(common/fmt.js wrapTextMultiline is not under the given sources). -/
def wrapTextMultiline (text : String) (width maxLines : Nat) : List String :=
  let tokens := (splitTokens isSpaceChar [] text.data).filter fun t => t != ""
  let lines := wrapGreedy width [] tokens
  if maxLines < lines.length then appendEllipsisLast (lines.take maxLines)
  else lines

/-- Modelled from the spec: fixed per-character width lookup at a 10px
reference size, with an average-width fallback for characters absent from
the table (common/render.js measureText is not under the given sources). -/
def charWidthAt10 (c : Char) : Q :=
  if c = ' ' then 4
  else if c.isUpper then 8
  else if c.isDigit then 7
  else if c.isLower then 6
  else 7

/-- Modelled from the spec: approximate pixel width of a string at a font
size, the per-character reference widths summed and scaled linearly. -/
def measureText (text : String) (fontSize : Q) : Q :=
  ((text.data.map charWidthAt10).foldl (fun a b => a + b) 0) * fontSize / 10

/-- Modelled from the spec: left-to-right flex packing; each item is placed
at the sum of the preceding widths and gaps, and a zero-width item reserves
no gap space (common/render.js flexLayout is not under the given sources). -/
def flexLayout (gap : Q) : List String → List Q → Q → List String
  | [], _, _ => []
  | item :: items, sizes, x =>
    let size := sizes.headD 0
    let adv := if size = 0 then 0 else size + gap
    ("<g transform=\"translate(" ++ toString x ++ ", 0)\">" ++ item ++ "</g>")
      :: flexLayout gap items sizes.tail (x + adv)

/-- Joins the laid-out row into one markup fragment. -/
def flexRow (items : List String) (sizes : List Q) (gap : Q) : String :=
  String.join (flexLayout gap items sizes 0)

/-- Modelled from the spec: pairs a vector icon with a text label into one
inline unit; the semantic key is used only for test-identification
attributes (common/render.js iconWithLabel is not under the given sources). -/
def iconWithLabel (icon label testid : String) (iconSize : Q) : String :=
  "<g data-testid=\"" ++ testid ++ "\"><svg class=\"icon\" y=\"-12\" viewBox=\"0 0 16 16\" version=\"1.1\" width=\"" ++ toString iconSize ++ "\" height=\"" ++ toString iconSize ++ "\">" ++ icon ++ "</svg><text data-testid=\"" ++ testid ++ "-label\" class=\"gray\" x=\"25\">" ++ label ++ "</text></g>"

/-- Modelled from the spec: language swatch plus entity-escaped language
name (common/render.js createLanguageNode is not under the given sources). -/
def createLanguageNode (nameText colorText : String) : String :=
  "<g data-testid=\"primary-lang\"><circle data-testid=\"lang-color\" x=\"0\" y=\"-5\" fill=\"" ++ colorText ++ "\" r=\"6\" /><text data-testid=\"lang-name\" class=\"gray\" x=\"15\">" ++ encodeHTML nameText ++ "</text></g>"

/-- Five resolved theme colors. -/
structure CardColors where
  titleColor : String
  iconColor : String
  textColor : String
  bgColor : String
  borderColor : String
deriving Repr, DecidableEq

/-- Checks whether a character is a hexadecimal digit. -/
def isHexDigit (c : Char) : Bool :=
  c.isDigit || "abcdefABCDEF".data.contains c

/-- Checks whether a string is a valid bare hex color value. -/
def isValidHexColor (s : String) : Bool :=
  (s.length == 3 || s.length == 4 || s.length == 6 || s.length == 8)
    && s.data.all isHexDigit

/-- Modelled from the spec: the default repo-card palette used when no
override applies (common/color.js is not under the given sources). -/
def defaultRepocardColors : CardColors :=
  { titleColor := "#2f80ed", iconColor := "#586069", textColor := "#434d58",
    bgColor := "#fffefe", borderColor := "#e4e2e2" }

/-- Modelled from the spec: theme-name lookup with unknown themes falling
back to the default palette; only the default palette is modelled. -/
def themeDefaults (_theme : String) : CardColors := defaultRepocardColors

/-- Modelled from the spec: an explicit valid hex override wins, otherwise
the theme default applies. -/
def fallbackColor (c : Option String) (fallback : String) : String :=
  match c with
  | some v => if isValidHexColor v then "#" ++ v else fallback
  | none => fallback

/-- Modelled from the spec: merging of theme defaults with explicit
overrides into the five resolved colors. -/
def getCardColors (title_color icon_color text_color bg_color border_color : Option String) (theme : String) : CardColors :=
  let d := themeDefaults theme
  { titleColor := fallbackColor title_color d.titleColor,
    iconColor := fallbackColor icon_color d.iconColor,
    textColor := fallbackColor text_color d.textColor,
    bgColor := fallbackColor bg_color d.bgColor,
    borderColor := fallbackColor border_color d.borderColor }

/-- Modelled from the spec: vector icon markup (common/icons.js is not under
the given sources; path data is representative). -/
def iconStar : String := "<path fill-rule=\"evenodd\" d=\"M8 .25l2.3 4.7 5.2.76-3.76 3.65.89 5.16L8 12.1l-4.64 2.42.89-5.16L.49 5.71l5.2-.76L8 .25z\"/>"

/-- Modelled from the spec: fork icon markup. -/
def iconFork : String := "<path fill-rule=\"evenodd\" d=\"M5 3.25a.75.75 0 11-1.5 0 .75.75 0 011.5 0zm0 2.12a2.25 2.25 0 10-1.5 0v.88A2.25 2.25 0 005.75 8.5h1.5v2.13a2.25 2.25 0 101.5 0V8.5h1.5a2.25 2.25 0 002.25-2.25v-.88z\"/>"

/-- Modelled from the spec: issues icon markup. -/
def iconIssues : String := "<path fill-rule=\"evenodd\" d=\"M8 1.5a6.5 6.5 0 100 13 6.5 6.5 0 000-13zM0 8a8 8 0 1116 0A8 8 0 010 8zm9 3a1 1 0 11-2 0 1 1 0 012 0zm-.25-6.25a.75.75 0 00-1.5 0v3.5a.75.75 0 001.5 0v-3.5z\"/>"

/-- Modelled from the spec: pull-request icon markup. -/
def iconPrs : String := "<path fill-rule=\"evenodd\" d=\"M7.177 3.073L9.573.677A.25.25 0 0110 .854v4.792a.25.25 0 01-.427.177L7.177 3.427a.25.25 0 010-.354z\"/>"

/-- Modelled from the spec: commits icon markup, used for the age badge. -/
def iconCommits : String := "<path fill-rule=\"evenodd\" d=\"M1.643 3.143L.427 1.927A.25.25 0 000 2.104V5.75c0 .138.112.25.25.25h3.646a.25.25 0 00.177-.427L2.715 4.215a6.5 6.5 0 11-1.18 4.458.75.75 0 10-1.49.178 8 8 0 101.6-5.708z\"/>"

/-- Modelled from the spec: contributions icon markup, the title prefix. -/
def iconContribs : String := "<path fill-rule=\"evenodd\" d=\"M1.5 2.75a.25.25 0 01.25-.25h12.5a.25.25 0 01.25.25v8.5a.25.25 0 01-.25.25h-6.5a.75.75 0 00-.53.22L4.5 14.44v-2.19a.75.75 0 00-.75-.75h-2a.25.25 0 01-.25-.25v-8.5z\"/>"

/-- Modelled from the spec: internationalized string lookup keyed by locale
(src/translations.js and common/I18n.js are not under the given sources);
only the default-locale repo-card strings are modelled. -/
def i18nT (_locale : Option String) (key : String) : String :=
  if key = "repocard.archived" then "Archived"
  else if key = "repocard.template" then "Template"
  else key

/-- A generated animation: a style sheet and a markup fragment. -/
structure AnimationData where
  css : String
  svg : String
deriving Repr, DecidableEq

/-- Wave animation tuning parameters (speed, amplitude, per-character
stagger delay, color-morph flag). -/
structure WaveParams where
  speed : Q := 2
  amplitude : Q := 3
  delay : Q := 1/20
  colorMorph : Bool := false
deriving Repr, DecidableEq

/-- Rational approximation of pi, used for the decorative trigonometric
coordinates; JavaScript evaluates these over IEEE doubles, which are out of
scope, so the coordinate text is approximated over the rationals. -/
def ratPI : Q := 355 / 113

/-- Truncated Taylor sine, adequate for decorative coordinate text. -/
def sinApprox (x : Q) : Q :=
  x - x ^ 3 / 6 + x ^ 5 / 120 - x ^ 7 / 5040 + x ^ 9 / 362880 - x ^ 11 / 39916800

/-- Truncated Taylor cosine, adequate for decorative coordinate text. -/
def cosApprox (x : Q) : Q :=
  1 - x ^ 2 / 2 + x ^ 4 / 24 - x ^ 6 / 720 + x ^ 8 / 40320 - x ^ 10 / 3628800

/-- Rounds a rational to millimeter precision to keep coordinate text short. -/
def roundMilli (q : Q) : Q := Q.norm { num := Q.floorInt (q * 1000), den := 1000 }

/-- Cosine of an angle given in degrees, as in the source's Math.cos. -/
def cosDeg (d : Q) : Q := roundMilli (cosApprox (d * ratPI / 180))

/-- Sine of an angle given in degrees, as in the source's Math.sin. -/
def sinDeg (d : Q) : Q := roundMilli (sinApprox (d * ratPI / 180))

/-- Fishtank bubbles, jellyfish and starfish animation (repo.js, case
"bubbles" of getAnimationStyle): deterministic index-driven geometry. -/
def bubblesStyle (colors : CardColors) (width height : Q) (wp : WaveParams) : AnimationData :=
  let iconColor := if colors.iconColor = "" then "38bdf8" else colors.iconColor
  let titleColor := if colors.titleColor = "" then "00d9ff" else colors.titleColor
  let textColor := if colors.textColor = "" then "434d58" else colors.textColor
  let waveSpeed := if wp.speed = 0 then 2 else wp.speed
  let waveAmplitude := if wp.amplitude = 0 then 3 else wp.amplitude
  let bubbles := String.join ((List.range 8).map fun (i : Nat) =>
    let iQ : Q := i
    let im3n := i % 3
    let im3 : Q := im3n
    let x := width * (iQ + 1) / 9
    let size := 3 + im3 * 2
    let delay := iQ * (2/5)
    let dur := 3 + im3
    s!"\n          <circle\n            class=\"bubble bubble-{i}\"\n            cx=\"{x}\"\n            cy=\"{height}\"\n            r=\"{size}\"\n            fill=\"{iconColor}\"\n            opacity=\"0.3\"\n            style=\"animation-delay: {delay}s; animation-duration: {dur}s;\"\n          />")
  let jellyfish := String.join ((List.range 2).map fun (i : Nat) =>
    let iQ : Q := i
    let startY := height * (3/10) + iQ * height * (1/4)
    let delay := iQ * 12 + 2
    let bellSize := 12 + iQ * 3
    let rx1 := bellSize
    let ry1 := bellSize * (4/5)
    let rx2 := bellSize * (7/10)
    let ry2 := bellSize * (3/5)
    let tentacles := String.join ((List.range 6).map fun (t : Nat) =>
      let tQ : Q := t
      let tentacleX := -(bellSize * (3/5)) + tQ * bellSize * (6/25)
      let startTent := startY + bellSize * (3/5)
      let q1x := tentacleX + 2
      let q1y := startY + bellSize + 5
      let endTent := startY + bellSize * (3/2) + tQ * 2
      let tDelay := delay + tQ * (1/10)
      s!"\n                <path\n                  class=\"tentacle tentacle-{t}\"\n                  d=\"M {tentacleX},{startTent} Q {q1x},{q1y} {tentacleX},{endTent}\"\n                  stroke=\"{iconColor}\"\n                  stroke-width=\"1.5\"\n                  fill=\"none\"\n                  opacity=\"0.5\"\n                  style=\"animation-delay: {tDelay}s;\"\n                />")
    let p1x := width * (3/10)
    let p1y := -15 + iQ * 8
    let p2x := width * (7/10)
    let p2y := 8 - iQ * 6
    let pEnd := width + 50
    s!"\n          <g class=\"jellyfish jellyfish-{i}\" style=\"animation-delay: {delay}s;\">\n            <ellipse\n              cx=\"0\" cy=\"{startY}\"\n              rx=\"{rx1}\" ry=\"{ry1}\"\n              fill=\"{titleColor}\"\n              opacity=\"0.4\"\n              filter=\"url(#jellyfish-glow)\"\n            />\n            <ellipse\n              cx=\"0\" cy=\"{startY}\"\n              rx=\"{rx2}\" ry=\"{ry2}\"\n              fill=\"{titleColor}\"\n              opacity=\"0.6\"\n            />{tentacles}\n            <animateMotion\n              dur=\"20s\"\n              repeatCount=\"indefinite\"\n              path=\"M -50,0 Q {p1x},{p1y} {p2x},{p2y} T {pEnd},0\"\n              begin=\"{delay}s\"\n            />\n          </g>")
  let starfish := String.join ((List.range 2).map fun (i : Nat) =>
    let iQ : Q := i
    let startY := height * (1/2) + iQ * height * (1/5)
    let delay := iQ * 15 + 7
    let size := 8 + iQ * 2
    let points := String.intercalate " " ((List.range 5).map fun (p : Nat) =>
      let pQ : Q := p
      let outerX := cosDeg (pQ * 72 - 90) * size
      let outerY := sinDeg (pQ * 72 - 90) * size
      let innerX := cosDeg (pQ * 72 + 36 - 90) * size * (2/5)
      let innerY := sinDeg (pQ * 72 + 36 - 90) * size * (2/5)
      let cmd := if p = 0 then "M" else "L"
      s!"{cmd} {outerX},{outerY} L {innerX},{innerY}") ++ " Z"
    let wp50 := width + 50
    let w06 := width * (3/5)
    let w03 := width * (3/10)
    let sYm10 := startY - 10
    let sYp8 := startY + 8
    s!"\n          <g class=\"starfish starfish-{i}\" style=\"animation-delay: {delay}s;\">\n            <path\n              d=\"{points}\"\n              fill=\"{iconColor}\"\n              opacity=\"0.4\"\n              stroke=\"{titleColor}\"\n              stroke-width=\"0.5\"\n            />\n            <animateMotion\n              dur=\"25s\"\n              repeatCount=\"indefinite\"\n              path=\"M {wp50},{startY} Q {w06},{sYm10} {w03},{sYp8} T -50,{startY}\"\n              begin=\"{delay}s\"\n            />\n            <animateTransform\n              attributeName=\"transform\"\n              type=\"rotate\"\n              from=\"0 0 0\"\n              to=\"360 0 0\"\n              dur=\"15s\"\n              repeatCount=\"indefinite\"\n              begin=\"{delay}s\"\n            />\n          </g>")
  let hp20 := height + 20
  let waveSpeedX3 := waveSpeed * 3
  let css := s!"\n        @keyframes bubbleFloat \x7b\n          0% \x7b transform: translateY(0) scale(1); opacity: 0.3; \x7d\n          50% \x7b opacity: 0.5; \x7d\n          100% \x7b transform: translateY(-{hp20}px) scale(0.5); opacity: 0; \x7d\n        \x7d\n        @keyframes jellyfishPulse \x7b\n          0%, 100% \x7b opacity: 0; \x7d\n          10%, 90% \x7b opacity: 1; \x7d\n          50% \x7b opacity: 0.8; \x7d\n        \x7d\n        @keyframes tentacleWave \x7b\n          0%, 100% \x7b transform: translateX(0); \x7d\n          50% \x7b transform: translateX(2px); \x7d\n        \x7d\n        @keyframes starfishDrift \x7b\n          0%, 100% \x7b opacity: 0; \x7d\n          10%, 90% \x7b opacity: 1; \x7d\n        \x7d\n        @keyframes letterWave \x7b\n          0%, 100% \x7b transform: translateY(0px); \x7d\n          50% \x7b transform: translateY(-{waveAmplitude}px); \x7d\n        \x7d\n        @keyframes colorMorph \x7b\n          0% \x7b fill: #{titleColor}; \x7d\n          25% \x7b fill: #{iconColor}; \x7d\n          50% \x7b fill: #{textColor}; \x7d\n          75% \x7b fill: #{iconColor}; \x7d\n          100% \x7b fill: #{titleColor}; \x7d\n        \x7d\n        .bubble \x7b\n          animation: bubbleFloat 3s infinite ease-in-out;\n        \x7d\n        .jellyfish \x7b\n          animation: jellyfishPulse 20s infinite ease-in-out;\n          filter: drop-shadow(0 0 4px {titleColor}40);\n        \x7d\n        .tentacle \x7b\n          animation: tentacleWave 2s infinite ease-in-out;\n        \x7d\n        .starfish \x7b\n          animation: starfishDrift 25s infinite ease-in-out;\n        \x7d\n        .wave-char \x7b\n          animation: letterWave {waveSpeed}s ease-in-out infinite;\n        \x7d\n        .wave-char-morph \x7b\n          animation: letterWave {waveSpeed}s ease-in-out infinite, colorMorph {waveSpeedX3}s ease-in-out infinite;\n        \x7d"
  let filters := "\n        <defs>\n          <filter id=\"jellyfish-glow\" x=\"-50%\" y=\"-50%\" width=\"200%\" height=\"200%\">\n            <feGaussianBlur stdDeviation=\"3\" result=\"coloredBlur\"/>\n            <feMerge>\n              <feMergeNode in=\"coloredBlur\"/>\n              <feMergeNode in=\"SourceGraphic\"/>\n            </feMerge>\n          </filter>\n        </defs>"
  { css := css,
    svg := s!"<g class=\"animation-layer\">{filters}{jellyfish}{starfish}{bubbles}</g>" }

/-- Glowing ember particles (repo.js, case "embers"): twelve circles at
per-call randomized coordinates, consuming three samples per ember. -/
def embersStyle (colors : CardColors) (width height : Q) (rand : Nat → Q) : AnimationData :=
  let titleColor := if colors.titleColor = "" then "00d9ff" else colors.titleColor
  let embers := String.join ((List.range 12).map fun (i : Nat) =>
    let x := 10 + rand (3 * i) * (width - 20)
    let y := height * (1/5) + rand (3 * i + 1) * (height * (3/5))
    let size := 3/2 + rand (3 * i + 2) * 2
    let iQ : Q := i
    let delay := iQ * (3/10)
    s!"\n          <circle\n            class=\"ember ember-{i}\"\n            cx=\"{x}\"\n            cy=\"{y}\"\n            r=\"{size}\"\n            fill=\"{titleColor}\"\n            style=\"animation-delay: {delay}s;\"\n          />")
  let css := "\n        @keyframes emberGlow \x7b\n          0%, 100% \x7b opacity: 0.2; filter: blur(0px); \x7d\n          25% \x7b opacity: 0.8; filter: blur(1px); \x7d\n          50% \x7b opacity: 0.4; filter: blur(0.5px); \x7d\n          75% \x7b opacity: 0.9; filter: blur(1.5px); \x7d\n        \x7d\n        @keyframes emberFloat \x7b\n          0%, 100% \x7b transform: translate(0, 0); \x7d\n          33% \x7b transform: translate(3px, -5px); \x7d\n          66% \x7b transform: translate(-3px, 5px); \x7d\n        \x7d\n        .ember \x7b\n          animation: emberGlow 2s infinite ease-in-out, emberFloat 4s infinite ease-in-out;\n        \x7d"
  { css := css, svg := s!"<g class=\"animation-layer\">{embers}</g>" }

/-- Radiant sun with pulsing rays (repo.js, case "radiant"): sixteen rays at
fixed angular increments from the center plus a pulsing core. -/
def radiantStyle (colors : CardColors) (width height : Q) : AnimationData :=
  let iconColor := if colors.iconColor = "" then "38bdf8" else colors.iconColor
  let titleColor := if colors.titleColor = "" then "00d9ff" else colors.titleColor
  let halfW := width / 2
  let halfH := height / 2
  let rays := String.join ((List.range 16).map fun (i : Nat) =>
    let iQ : Q := i
    let ang := iQ * 360 / 16
    let x2 := halfW + cosDeg ang * 80
    let y2 := halfH + sinDeg ang * 80
    let delay := iQ * (1/20)
    s!"\n          <line\n            class=\"ray ray-{i}\"\n            x1=\"{halfW}\"\n            y1=\"{halfH}\"\n            x2=\"{x2}\"\n            y2=\"{y2}\"\n            stroke=\"{iconColor}\"\n            stroke-width=\"1.5\"\n            opacity=\"0.2\"\n            style=\"animation-delay: {delay}s;\"\n          />")
  let core := s!"\n        <circle\n          class=\"radiant-core\"\n          cx=\"{halfW}\"\n          cy=\"{halfH}\"\n          r=\"8\"\n          fill=\"{titleColor}\"\n          opacity=\"0.3\"\n        />"
  let css := s!"\n        @keyframes rayPulse \x7b\n          0%, 100% \x7b opacity: 0.1; stroke-width: 1; \x7d\n          50% \x7b opacity: 0.4; stroke-width: 2; \x7d\n        \x7d\n        @keyframes corePulse \x7b\n          0%, 100% \x7b opacity: 0.2; transform: scale(1); \x7d\n          50% \x7b opacity: 0.5; transform: scale(1.2); \x7d\n        \x7d\n        .ray \x7b\n          animation: rayPulse 2s infinite ease-in-out;\n          transform-origin: {halfW}px {halfH}px;\n        \x7d\n        .radiant-core \x7b\n          animation: corePulse 2s infinite ease-in-out;\n          transform-origin: {halfW}px {halfH}px;\n        \x7d"
  { css := css, svg := s!"<g class=\"animation-layer\">{rays}{core}</g>" }

/-- Circuit dots traveling the card perimeter (repo.js, case "circuit"):
six dots on a rectangular motion path plus four glowing edge strokes. -/
def circuitStyle (colors : CardColors) (width height : Q) : AnimationData :=
  let iconColor := if colors.iconColor = "" then "38bdf8" else colors.iconColor
  let titleColor := if colors.titleColor = "" then "00d9ff" else colors.titleColor
  let wm5 := width - 5
  let hm5 := height - 5
  let wm6 := width - 6
  let hm6 := height - 6
  let wm10 := width - 10
  let hm10 := height - 10
  let dots := String.join ((List.range 6).map fun (i : Nat) =>
    let iQ : Q := i
    let delay := iQ * (4/5)
    s!"\n          <circle\n            class=\"circuit-dot circuit-dot-{i}\"\n            r=\"3\"\n            fill=\"{titleColor}\"\n            opacity=\"0.6\"\n            style=\"animation-delay: {delay}s;\"\n          >\n            <animateMotion\n              dur=\"4s\"\n              repeatCount=\"indefinite\"\n              path=\"M 5,5 L {wm5},5 L {wm5},{hm5} L 5,{hm5} Z\"\n              begin=\"{delay}s\"\n            />\n          </circle>")
  let trail := s!"\n        <rect\n          class=\"circuit-glow-top\"\n          x=\"5\"\n          y=\"5\"\n          width=\"{wm10}\"\n          height=\"1\"\n          fill=\"{iconColor}\"\n          opacity=\"0.2\"\n        />\n        <rect\n          class=\"circuit-glow-right\"\n          x=\"{wm6}\"\n          y=\"5\"\n          width=\"1\"\n          height=\"{hm10}\"\n          fill=\"{iconColor}\"\n          opacity=\"0.2\"\n        />\n        <rect\n          class=\"circuit-glow-bottom\"\n          x=\"5\"\n          y=\"{hm6}\"\n          width=\"{wm10}\"\n          height=\"1\"\n          fill=\"{iconColor}\"\n          opacity=\"0.2\"\n        />\n        <rect\n          class=\"circuit-glow-left\"\n          x=\"5\"\n          y=\"5\"\n          width=\"1\"\n          height=\"{hm10}\"\n          fill=\"{iconColor}\"\n          opacity=\"0.2\"\n        />"
  let css := s!"\n        @keyframes circuitGlow \x7b\n          0%, 100% \x7b opacity: 0.1; \x7d\n          50% \x7b opacity: 0.4; \x7d\n        \x7d\n        .circuit-dot \x7b\n          filter: drop-shadow(0 0 2px {titleColor});\n        \x7d\n        [class^=\"circuit-glow-\"] \x7b\n          animation: circuitGlow 2s infinite ease-in-out;\n        \x7d"
  { css := css, svg := s!"<g class=\"animation-layer\">{trail}{dots}</g>" }

/-- Electric sparks (repo.js, case "sparks"): ten four-line spark glyphs at
per-call randomized position and rotation, three samples per spark. -/
def sparksStyle (colors : CardColors) (width height : Q) (rand : Nat → Q) : AnimationData :=
  let iconColor := if colors.iconColor = "" then "38bdf8" else colors.iconColor
  let titleColor := if colors.titleColor = "" then "00d9ff" else colors.titleColor
  let sparks := String.join ((List.range 10).map fun (i : Nat) =>
    let x := 20 + rand (3 * i) * (width - 40)
    let y := 20 + rand (3 * i + 1) * (height - 40)
    let iQ : Q := i
    let delay := iQ * (1/2)
    let rotation := rand (3 * i + 2) * 360
    s!"\n          <g class=\"spark spark-{i}\" transform=\"translate({x}, {y}) rotate({rotation})\" style=\"animation-delay: {delay}s;\">\n            <line x1=\"-6\" y1=\"0\" x2=\"6\" y2=\"0\" stroke=\"{titleColor}\" stroke-width=\"2\" opacity=\"0.8\" />\n            <line x1=\"0\" y1=\"-6\" x2=\"0\" y2=\"6\" stroke=\"{titleColor}\" stroke-width=\"2\" opacity=\"0.8\" />\n            <line x1=\"-4\" y1=\"-4\" x2=\"4\" y2=\"4\" stroke=\"{iconColor}\" stroke-width=\"1.5\" opacity=\"0.6\" />\n            <line x1=\"-4\" y1=\"4\" x2=\"4\" y2=\"-4\" stroke=\"{iconColor}\" stroke-width=\"1.5\" opacity=\"0.6\" />\n          </g>")
  let css := "\n        @keyframes sparkFlash \x7b\n          0%, 90%, 100% \x7b opacity: 0; transform: scale(0); \x7d\n          5% \x7b opacity: 1; transform: scale(1.2); \x7d\n          10% \x7b opacity: 0.8; transform: scale(0.9); \x7d\n          15% \x7b opacity: 0; transform: scale(0.6); \x7d\n        \x7d\n        .spark \x7b\n          animation: sparkFlash 5s infinite ease-in-out;\n          transform-origin: center;\n        \x7d"
  { css := css, svg := s!"<g class=\"animation-layer\">{sparks}</g>" }

/-- The five recognized animation style names. -/
def knownAnimationStyles : List String :=
  ["bubbles", "embers", "radiant", "circuit", "sparks"]

/-- Animation dispatch (repo.js getAnimationStyle): an empty or "none"
style name and every unrecognized style name produce the empty pair; the
randomness source is consulted only by the embers and sparks branches. -/
def getAnimationStyle (style : String) (colors : CardColors) (width height : Q) (wp : WaveParams) (rand : Nat → Q) : AnimationData :=
  if style = "" ∨ style = "none" then { css := "", svg := "" }
  else if style = "bubbles" then bubblesStyle colors width height wp
  else if style = "embers" then embersStyle colors width height rand
  else if style = "radiant" then radiantStyle colors width height
  else if style = "circuit" then circuitStyle colors width height
  else if style = "sparks" then sparksStyle colors width height rand
  else { css := "", svg := "" }

/-- The non-breaking space used to preserve spaces in the wave title. -/
def nbspChar : Char := Char.ofNat 160

/-- Wraps each character of the text in a tspan with a staggered animation
delay (repo.js wrapTextInWave).  Characters are embedded verbatim, only a
space is replaced by a non-breaking space. -/
def wrapTextInWave (text : String) (baseDelay delayPerChar : Q) (colorMorph : Bool) : String :=
  String.join (text.data.enum.map fun (p : Nat × Char) =>
    let iQ : Q := p.1
    let delay := baseDelay + iQ * delayPerChar
    let displayChar :=
      if p.2 = ' ' then String.singleton nbspChar else String.singleton p.2
    let morphClass := if colorMorph then " wave-char-morph" else ""
    s!"<tspan class=\"wave-char{morphClass}\" style=\"animation-delay: {delay}s\">{displayChar}</tspan>")

/-- Badge pill for the archived or template state (repo.js getBadgeSVG). -/
def getBadgeSVG (label textColor : String) : String :=
  "\n  <g data-testid=\"badge\" class=\"badge\" transform=\"translate(320, -18)\">\n    <rect stroke=\"" ++ textColor ++ "\" stroke-width=\"1\" width=\"70\" height=\"20\" x=\"-12\" y=\"-14\" ry=\"10\" rx=\"10\"></rect>\n    <text\n      x=\"23\" y=\"-5\"\n      alignment-baseline=\"central\"\n      dominant-baseline=\"central\"\n      text-anchor=\"middle\"\n      fill=\"" ++ textColor ++ "\"\n    >\n      " ++ label ++ "\n    </text>\n  </g>\n"

/-- A repository's primary language: nullable name and display color. -/
structure LanguageInfo where
  name : Option String := none
  color : Option String := none
deriving Repr, DecidableEq

/-- RepositoryRecord: the immutable repository data record consumed by the
composer.  Counts that the upstream fetcher may omit are optional;
timestamps are resolved instants in epoch milliseconds or absent. -/
structure RepositoryData where
  name : String := ""
  nameWithOwner : String := ""
  description : Option String := none
  primaryLanguage : Option LanguageInfo := none
  isArchived : Bool := false
  isTemplate : Bool := false
  starCount : Option Nat := none
  forkCount : Option Nat := none
  openIssuesCount : Option Nat := none
  openPrsCount : Option Nat := none
  createdAt : Option Int := none
  pushedAt : Option Int := none
  firstCommitDate : Option Int := none
deriving Repr, DecidableEq

/-- RenderOptions: the per-call configuration bag with the defaults of the
destructuring in renderRepoCard (repo.js lines 505-530). -/
structure RepoCardOptions where
  hide_border : Bool := false
  hide_title : Bool := false
  hide_text : Bool := false
  stats_only : Bool := false
  title_color : Option String := none
  icon_color : Option String := none
  text_color : Option String := none
  bg_color : Option String := none
  show_owner : Bool := false
  theme : String := "default_repocard"
  border_radius : Option Q := none
  border_color : Option String := none
  locale : Option String := none
  description_lines_count : Option Int := none
  show_issues : Bool := false
  show_prs : Bool := false
  show_age : Bool := false
  age_metric : String := "first"
  animation_style : String := "none"
  disable_animations : Bool := false
  wave_speed : Q := 2
  wave_amplitude : Q := 3
  wave_delay : Q := 1/20
  color_morph : Bool := false
deriving Repr, DecidableEq

/-- Modelled from the spec: the fixed-width SVG card shell assembled by the
composer (common/Card.js is not under the given sources).  The card holds
the resolved title, dimensions, paddings, colors and extra style rules. -/
structure Card where
  title : String := ""
  titlePrefixIcon : String := ""
  width : Q := 100
  height : Int := 100
  border_radius : Q := 9/2
  colors : CardColors := defaultRepocardColors
  hideBorder : Bool := false
  hideTitle : Bool := false
  paddingX : Q := 25
  paddingY : Q := 35
  animations : Bool := true
  css : String := ""
deriving Repr, DecidableEq

/-- Modelled from the spec: turning card-level animations off. -/
def Card.disableAnimations (c : Card) : Card := { c with animations := false }

/-- Modelled from the spec: border visibility toggle. -/
def Card.setHideBorder (c : Card) (v : Bool) : Card := { c with hideBorder := v }

/-- Modelled from the spec: hiding the title removes the title element and
reduces the rendered card height by the fixed 30-unit title band, so that a
compact stats-only card renders at exactly the compact-formula height the
specification requires. -/
def Card.setHideTitle (c : Card) (v : Bool) : Card :=
  if v then { c with hideTitle := true, height := c.height - 30 }
  else { c with hideTitle := false }

/-- Modelled from the spec: installing the card's extra style rules. -/
def Card.setCSS (c : Card) (css : String) : Card := { c with css := css }

/-- Modelled from the spec: the card-title element, emitted unless the
title is hidden; the title text is entity-escaped before embedding. -/
def Card.titleGroup (c : Card) : String :=
  if c.hideTitle then ""
  else
    let t := encodeHTML c.title
    s!"<g data-testid=\"card-title\" transform=\"translate({c.paddingX}, {c.paddingY})\"><svg class=\"icon\" x=\"0\" y=\"-13\" viewBox=\"0 0 16 16\" version=\"1.1\" width=\"16\" height=\"16\">{c.titlePrefixIcon}</svg><text x=\"25\" y=\"0\" class=\"header\" data-testid=\"header\">{t}</text></g>"

/-- Modelled from the spec: the style element content of the card: a base
header rule followed by the extra rules installed by the composer. -/
def Card.styles (c : Card) : String :=
  s!".header \x7b font: 600 18px \x27Segoe UI\x27, Ubuntu, Sans-Serif; fill: {c.colors.titleColor}; \x7d{c.css}"

/-- Modelled from the spec: the background rectangle with the border hidden
by a zero stroke opacity when requested. -/
def Card.background (c : Card) : String :=
  let so := if c.hideBorder then "0" else "1"
  let wm1 := c.width - 1
  s!"<rect data-testid=\"card-bg\" x=\"0.5\" y=\"0.5\" rx=\"{c.border_radius}\" height=\"99%\" stroke=\"{c.colors.borderColor}\" width=\"{wm1}\" fill=\"{c.colors.bgColor}\" stroke-opacity=\"{so}\"/>"

/-- Modelled from the spec: the document text between the opening tag and
the card body. -/
def Card.midPre (c : Card) : String :=
  let bodyY := if c.hideTitle then c.paddingX else c.paddingY + 20
  s!" width=\"{c.width}\" height=\"{c.height}\" viewBox=\"0 0 {c.width} {c.height}\" fill=\"none\" xmlns=\"http://www.w3.org/2000/svg\" role=\"img\"><style>{c.styles}</style>{c.background}{c.titleGroup}<g data-testid=\"main-card-body\" transform=\"translate(0, {bodyY})\">"

/-- Modelled from the spec: the document between the fixed opening tag text
and the closing tag text. -/
def Card.renderMid (c : Card) (body : String) : String :=
  Card.midPre c ++ body ++ "</g>"

/-- Modelled from the spec: one complete SVG document as text. -/
def Card.render (c : Card) (body : String) : String :=
  "<svg" ++ Card.renderMid c body ++ "</svg>"

/-- Derived flag: the title is hidden (repo.js line 538). -/
def shouldHideTitle (o : RepoCardOptions) : Bool := o.stats_only || o.hide_title

/-- Derived flag: the text block is hidden (repo.js line 539). -/
def shouldHideText (o : RepoCardOptions) : Bool := o.stats_only || o.hide_text

/-- The display header: owner-qualified or bare name (repo.js line 533). -/
def headerText (r : RepositoryData) (o : RepoCardOptions) : String :=
  if o.show_owner then r.nameWithOwner else r.name

/-- The header truncated to 35 characters plus an ellipsis (repo.js 708). -/
def truncatedHeader (r : RepositoryData) (o : RepoCardOptions) : String :=
  let h := headerText r o
  if 35 < h.length then h.take 35 ++ "..." else h

/-- The language name with the JavaScript falsy fallback (repo.js 534). -/
def langName (r : RepositoryData) : String :=
  match r.primaryLanguage with
  | some l =>
    match l.name with
    | some n => if n = "" then "Unspecified" else n
    | none => "Unspecified"
  | none => "Unspecified"

/-- The language color with the JavaScript falsy fallback (repo.js 535). -/
def langColor (r : RepositoryData) : String :=
  match r.primaryLanguage with
  | some l =>
    match l.color with
    | some c => if c = "" then "#333" else c
    | none => "#333"
  | none => "#333"

/-- The language swatch markup, empty without a language (repo.js 592). -/
def svgLanguage (r : RepositoryData) : String :=
  match r.primaryLanguage with
  | some _ => createLanguageNode (langName r) (langColor r)
  | none => ""

/-- Whether description_lines_count is set in the JavaScript falsy sense
(undefined and 0 both count as unset, repo.js 542 and 553). -/
def dlcIsSet (o : RepoCardOptions) : Bool :=
  match o.description_lines_count with
  | some d => d != 0
  | none => false

/-- The configured maximum description line count, clamped into 1..3
(repo.js 542-544). -/
def descriptionMaxLines (o : RepoCardOptions) : Nat :=
  match o.description_lines_count with
  | some d => if d != 0 then (clampValue d 1 3).toNat else 3
  | none => 3

/-- The description text with the literal fallback for an absent or empty
description (repo.js 546). -/
def descriptionText (r : RepositoryData) : String :=
  parseEmojis
    (match r.description with
     | some d => if d = "" then "No description provided" else d
     | none => "No description provided")

/-- The wrapped description lines (repo.js 547-551). -/
def multiLineDescription (r : RepositoryData) (o : RepoCardOptions) : List String :=
  wrapTextMultiline (descriptionText r) 59 (descriptionMaxLines o)

/-- The tracked description line count: zero when the text is hidden, the
configured maximum when description_lines_count is set, otherwise the
number of wrapped lines (repo.js 536 and 553-555). -/
def descriptionLinesCount (r : RepositoryData) (o : RepoCardOptions) : Nat :=
  if shouldHideText o then 0
  else if dlcIsSet o then descriptionMaxLines o
  else (multiLineDescription r o).length

/-- The description tspan markup, each line entity-escaped (repo.js
557-559), empty when the text is hidden. -/
def descriptionSvg (r : RepositoryData) (o : RepoCardOptions) : String :=
  if shouldHideText o then ""
  else
    String.join ((multiLineDescription r o).map fun line =>
      let e := encodeHTML line
      s!"<tspan dy=\"1.2em\" x=\"25\">{e}</tspan>")

/-- Whether a description block is rendered (repo.js 562). -/
def hasDescription (r : RepositoryData) (o : RepoCardOptions) : Bool :=
  !shouldHideText o && descriptionLinesCount r o != 0

/-- Compact stats-only layout: both title and text hidden (repo.js 570). -/
def compactStatsOnlyLayout (o : RepoCardOptions) : Bool :=
  shouldHideText o && shouldHideTitle o

/-- The content height: base 110 units, or 120 when the description
occupies more than one line, plus 10 units per description line; overridden
by the fixed compact formula of twice the 12-unit padding plus the
16-plus-8-unit icon row when the compact layout is active (repo.js
563-575). -/
def contentHeight (r : RepositoryData) (o : RepoCardOptions) : Int :=
  if compactStatsOnlyLayout o then 12 * 2 + (16 + 8)
  else
    (if hasDescription r o && 1 < descriptionLinesCount r o then 120 else 110)
      + (if hasDescription r o then (descriptionLinesCount r o : Int) * 10 else 0)

/-- The height handed to the card: the compact layout adds back the
30-unit title band that hiding the title removes (repo.js 701-705). -/
def cardHeight (r : RepositoryData) (o : RepoCardOptions) : Int :=
  if shouldHideTitle o then
    if compactStatsOnlyLayout o then contentHeight r o + 30 else contentHeight r o
  else contentHeight r o

/-- The resolved theme colors of a render (repo.js 583-590). -/
def cardColors (o : RepoCardOptions) : CardColors :=
  getCardColors o.title_color o.icon_color o.text_color o.bg_color o.border_color o.theme

/-- Open issue count with the missing value defaulted to zero (repo.js 598). -/
def issuesCount (r : RepositoryData) : Nat := r.openIssuesCount.getD 0

/-- Open PR count with the missing value defaulted to zero (repo.js 599). -/
def prsCount (r : RepositoryData) : Nat := r.openPrsCount.getD 0

/-- The star label: the star count passed to the kilo-formatter without any
defaulting (repo.js 596). -/
def totalStars (r : RepositoryData) : String := kFormatterOpt r.starCount

/-- The fork label: the fork count passed to the kilo-formatter without any
defaulting (repo.js 597). -/
def totalForks (r : RepositoryData) : String := kFormatterOpt r.forkCount

/-- The formatted issue label (repo.js 600). -/
def totalIssues (r : RepositoryData) : String := kFormatter (issuesCount r)

/-- The formatted PR label (repo.js 601). -/
def totalPRs (r : RepositoryData) : String := kFormatter (prsCount r)

/-- The issues badge, emitted only when requested (repo.js 603-605). -/
def svgIssues (r : RepositoryData) (o : RepoCardOptions) : String :=
  if o.show_issues then iconWithLabel iconIssues (totalIssues r) "issues" 16 else ""

/-- The PRs badge, emitted only when requested (repo.js 606-608). -/
def svgPRs (r : RepositoryData) (o : RepoCardOptions) : String :=
  if o.show_prs then iconWithLabel iconPrs (totalPRs r) "prs" 16 else ""

/-- Elapsed whole seconds between a timestamp and the clock reading, both
in epoch milliseconds, floored and clamped at zero (repo.js 619-621). -/
def elapsedSec (t now : Int) : Nat := ((now - t).fdiv 1000).toNat

/-- The unit ladder of formatAge on an elapsed-seconds value (repo.js
622-642): years, else months, else days, else hours, else minutes, else
seconds, with a 365-day year and a 30-day month. -/
def formatAgeSec (sec : Nat) : String :=
  let y := sec / (365 * 24 * 3600)
  if 1 ≤ y then toString y ++ "y"
  else
    let mo := sec / (30 * 24 * 3600)
    if 1 ≤ mo then toString mo ++ "mo"
    else
      let d := sec / (24 * 3600)
      if 1 ≤ d then toString d ++ "d"
      else
        let h := sec / 3600
        if 1 ≤ h then toString h ++ "h"
        else
          let m := sec / 60
          if 1 ≤ m then toString m ++ "m"
          else toString sec ++ "s"

/-- Compact relative age label of a resolved timestamp, empty for a missing
one (repo.js formatAge, lines 615-643). -/
def formatAge (iso : Option Int) (now : Int) : String :=
  match iso with
  | none => ""
  | some t => formatAgeSec (elapsedSec t now)

/-- The timestamp selected by the age metric: created and first select
their fields, everything else selects the last-push timestamp (repo.js
645-653). -/
def selectAgeIso (r : RepositoryData) (metric : String) : Option Int :=
  if metric = "created" then r.createdAt
  else if metric = "first" then r.firstCommitDate
  else r.pushedAt

/-- The timestamp feeding the age badge of a render. -/
def ageIso (r : RepositoryData) (o : RepoCardOptions) : Option Int :=
  selectAgeIso r o.age_metric

/-- The age label of a render (repo.js 654). -/
def ageLabel (r : RepositoryData) (o : RepoCardOptions) (now : Int) : String :=
  formatAge (ageIso r o) now

/-- The age badge, emitted only when requested and the label resolved
(repo.js 655-658). -/
def svgAge (r : RepositoryData) (o : RepoCardOptions) (now : Int) : String :=
  if o.show_age && ageLabel r o now != "" then
    iconWithLabel iconCommits (ageLabel r o now) "age" 16
  else ""

/-- The stars badge (repo.js 659-664). -/
def svgStars (r : RepositoryData) : String :=
  iconWithLabel iconStar (totalStars r) "stargazers" 16

/-- The forks badge (repo.js 665-670). -/
def svgForks (r : RepositoryData) : String :=
  iconWithLabel iconFork (totalForks r) "forkcount" 16

/-- The row after the optional language item (repo.js 673-678): the item
and size lists in construction order. -/
def rowA (r : RepositoryData) : List String × List Q :=
  if svgLanguage r != "" then ([svgLanguage r], [measureText (langName r) 12])
  else ([], [])

/-- The row after the unconditional star and fork items (repo.js 679-682). -/
def rowAfterForks (r : RepositoryData) : List String × List Q :=
  let a := rowA r
  (a.1 ++ [svgStars r, svgForks r],
   a.2 ++ [16 + measureText (totalStars r) 12, 16 + measureText (totalForks r) 12])

/-- The row after the conditional issues item (repo.js 683-686). -/
def rowAfterIssues (r : RepositoryData) (o : RepoCardOptions) : List String × List Q :=
  let b := rowAfterForks r
  if o.show_issues && 0 < issuesCount r then
    (b.1 ++ [svgIssues r o], b.2 ++ [16 + measureText (totalIssues r) 12])
  else b

/-- The row after the conditional PRs item (repo.js 687-690). -/
def rowAfterPrs (r : RepositoryData) (o : RepoCardOptions) : List String × List Q :=
  let c := rowAfterIssues r o
  if o.show_prs && 0 < prsCount r then
    (c.1 ++ [svgPRs r o], c.2 ++ [16 + measureText (totalPRs r) 12])
  else c

/-- The complete stat row after the conditional age item (repo.js 691-694). -/
def rowFinal (r : RepositoryData) (o : RepoCardOptions) (now : Int) : List String × List Q :=
  let d := rowAfterPrs r o
  if o.show_age && ageLabel r o now != "" then
    (d.1 ++ [svgAge r o now], d.2 ++ [16 + measureText (ageLabel r o now) 12])
  else d

/-- The flex-laid-out stat row markup (repo.js 695-699). -/
def starAndForkCount (r : RepositoryData) (o : RepoCardOptions) (now : Int) : String :=
  flexRow (rowFinal r o now).1 (rowFinal r o now).2 16

/-- Whether any animation is generated (repo.js 717). -/
def hasAnimation (o : RepoCardOptions) : Bool :=
  !o.disable_animations && o.animation_style != "none"

/-- The wave parameters handed to the animation generator (repo.js
718-723). -/
def waveParamsOf (o : RepoCardOptions) : WaveParams :=
  { speed := o.wave_speed, amplitude := o.wave_amplitude,
    delay := o.wave_delay, colorMorph := o.color_morph }

/-- The animation data of a render: generated at the card width 400 and the
card height, or the empty pair when animations are off (repo.js 724-726). -/
def animationDataOf (r : RepositoryData) (o : RepoCardOptions) (rand : Nat → Q) : AnimationData :=
  if hasAnimation o then
    getAnimationStyle o.animation_style (cardColors o) 400
      ((cardHeight r o : Int) : Q) (waveParamsOf o) rand
  else { css := "", svg := "" }

/-- Whether the character-wave title effect is active (repo.js 729). -/
def useBubblesWave (o : RepoCardOptions) : Bool :=
  o.animation_style == "bubbles" && !o.disable_animations

/-- The rule hiding the plain title when the wave title is active
(repo.js 752). -/
def bubblesHideRule (o : RepoCardOptions) : String :=
  if useBubblesWave o then
    "g[data-testid=\"card-title\"]:not(:has(.wave-title)) \x7b display: none; \x7d"
  else ""

/-- The style rules installed on the card (repo.js 742-754). -/
def cardCssOf (r : RepositoryData) (o : RepoCardOptions) (rand : Nat → Q) : String :=
  let colors := cardColors o
  let tc := colors.textColor
  let ic := colors.iconColor
  let ttc := colors.titleColor
  let hide := bubblesHideRule o
  let ac := (animationDataOf r o rand).css
  s!"\n    .description \x7b font: 400 13px \x27Segoe UI\x27, Ubuntu, Sans-Serif; fill: {tc} \x7d\n    .gray \x7b font: 400 12px \x27Segoe UI\x27, Ubuntu, Sans-Serif; fill: {tc} \x7d\n    .icon \x7b fill: {ic} \x7d\n    .badge \x7b font: 600 11px \x27Segoe UI\x27, Ubuntu, Sans-Serif; \x7d\n    .badge rect \x7b opacity: 0.2 \x7d\n    .wave-title \x7b font: 600 18px \x27Segoe UI\x27, Ubuntu, Sans-Serif; fill: {ttc}; \x7d\n    @supports(-moz-appearance: auto) \x7b\n      .wave-title \x7b font-size: 15.5px; \x7d\n    \x7d\n    {hide}\n    {ac}\n  "

/-- The configured card of a render, mirroring the construction and the
mutating calls of repo.js 707-754: construction with the truncated header
and the card height, optional animation disabling, border and title hiding,
the compact padding override, and the style installation. -/
def theCard (r : RepositoryData) (o : RepoCardOptions) (rand : Nat → Q) : Card :=
  let c0 : Card :=
    { title := truncatedHeader r o, titlePrefixIcon := iconContribs,
      width := 400, height := cardHeight r o,
      border_radius := o.border_radius.getD (9/2), colors := cardColors o }
  let c1 := if o.disable_animations then c0.disableAnimations else c0
  let c2 := c1.setHideBorder o.hide_border
  let c3 := c2.setHideTitle (shouldHideTitle o)
  let c4 := if compactStatsOnlyLayout o then { c3 with paddingX := 25 } else c3
  c4.setCSS (cardCssOf r o rand)

/-- The custom wave title, emitted only for the bubbles style with a
visible title (repo.js 757-777); the truncated header characters are fed to
wrapTextInWave with the configured stagger delay and color morphing. -/
def customWaveTitle (r : RepositoryData) (o : RepoCardOptions) (rand : Nat → Q) : String :=
  if useBubblesWave o && !shouldHideTitle o then
    let c := theCard r o rand
    let wave := wrapTextInWave (truncatedHeader r o) 0 o.wave_delay o.color_morph
    s!"\n    <g data-testid=\"card-title\" transform=\"translate({c.paddingX}, {c.paddingY})\">\n      <svg\n        class=\"icon\"\n        x=\"0\"\n        y=\"-13\"\n        viewBox=\"0 0 16 16\"\n        version=\"1.1\"\n        width=\"16\"\n        height=\"16\"\n      >\n        {iconContribs}\n      </svg>\n      <text x=\"25\" y=\"0\" class=\"wave-title\" data-testid=\"header\">\n        {wave}\n      </text>\n    </g>\n  "
  else ""

/-- The archived or template badge pill, the template taking precedence
(repo.js 783-789). -/
def badgeOf (r : RepositoryData) (o : RepoCardOptions) : String :=
  if r.isTemplate then getBadgeSVG (i18nT o.locale "repocard.template") (cardColors o).textColor
  else if r.isArchived then getBadgeSVG (i18nT o.locale "repocard.archived") (cardColors o).textColor
  else ""

/-- The description text block (repo.js 791-799). -/
def descBlockOf (r : RepositoryData) (o : RepoCardOptions) : String :=
  if hasDescription r o then
    let d := descriptionSvg r o
    s!"\n    <text class=\"description\" x=\"25\" y=\"-5\">\n      {d}\n    </text>\n    "
  else ""

/-- The horizontal offset of the stat row (repo.js 801). -/
def statTranslateX (o : RepoCardOptions) : String :=
  if compactStatsOnlyLayout o then "20" else "30"

/-- The vertical offset of the stat row (repo.js 801-803). -/
def statTranslateY (r : RepositoryData) (o : RepoCardOptions) : String :=
  if hasDescription r o then toString (contentHeight r o - 75)
  else if compactStatsOnlyLayout o then "2.5"
  else "0"

/-- The card body before the wave title (repo.js 779-781): the animation
layer fragment. -/
def cardBodyPre (r : RepositoryData) (o : RepoCardOptions) (rand : Nat → Q) : String :=
  "\n    " ++ (animationDataOf r o rand).svg ++ "\n    "

/-- The card body after the wave title (repo.js 782-806): badge,
description block, and the translated stat row. -/
def cardBodyPost (r : RepositoryData) (o : RepoCardOptions) (now : Int) : String :=
  let badge := badgeOf r o
  let desc := descBlockOf r o
  let sx := statTranslateX o
  let sy := statTranslateY r o
  let row := starAndForkCount r o now
  s!"\n\n    {badge}\n\n    {desc}\n\n    <g transform=\"translate({sx}, {sy})\">\n      {row}\n    </g>\n  "

/-- The card body handed to Card.render (repo.js 779-806): animation layer,
wave title, badge, description block, and the translated stat row. -/
def cardBodyOf (r : RepositoryData) (o : RepoCardOptions) (now : Int) (rand : Nat → Q) : String :=
  cardBodyPre r o rand ++ customWaveTitle r o rand ++ cardBodyPost r o now

/-- Renders the repository card (repo.js renderRepoCard): a pure function
of the repository record, the options, the clock reading in epoch
milliseconds, and the randomness source consumed by the embers and sparks
animation styles. -/
def renderRepoCard (r : RepositoryData) (o : RepoCardOptions) (now : Int) (rand : Nat → Q) : String :=
  Card.render (theCard r o rand) (cardBodyOf r o now rand)

/-- A constant randomness source used for concrete instances. -/
def zeroRand : Nat → Q := fun _ => 0

/-- A representative repository record used for concrete instances. -/
def rFix : RepositoryData :=
  { name := "demo-repo", nameWithOwner := "owner/demo-repo",
    description := some "A tiny demo repository for layout checks",
    primaryLanguage := some { name := some "TypeScript", color := some "#2b7489" },
    starCount := some 1500, forkCount := some 12,
    openIssuesCount := some 3, openPrsCount := some 2,
    createdAt := some 0, pushedAt := some 0, firstCommitDate := some 0 }

/-- A repository record whose name holds an XML-significant character. -/
def rBug : RepositoryData := { name := "a&b", pushedAt := some 0 }

/-- Options activating the bubbles wave title with the text hidden. -/
def oBug : RepoCardOptions := { animation_style := "bubbles", hide_text := true }

/-- Options with animations disabled while a style and tuning are set. -/
def oNoAnim1 : RepoCardOptions :=
  { disable_animations := true, animation_style := "sparks", show_age := true,
    wave_speed := 5 }

/-- Options with the none style while other tuning is set. -/
def oNoAnim2 : RepoCardOptions :=
  { animation_style := "none", color_morph := true, wave_amplitude := 7 }

/-- Stats-only options with other toggles set. -/
def oStats : RepoCardOptions :=
  { stats_only := true, hide_border := true, show_owner := true }

/-- Stats-only options with the age badge on the pushed metric. -/
def oAge : RepoCardOptions :=
  { stats_only := true, show_age := true, age_metric := "pushed" }

/-- A 200-character description: twenty-four seven-character words and one
eight-character word, space separated. -/
def desc200 : String :=
  String.intercalate " " (List.replicate 24 "abcdefg" ++ ["abcdefgh"])

/-- A repository record with the 200-character description. -/
def r200 : RepositoryData := { name := "long-desc", description := some desc200 }

/-- A repository record with a single-word description. -/
def rShort : RepositoryData := { name := "short-desc", description := some "short" }

/-- Options forcing the three-line description count. -/
def oThreeLines : RepoCardOptions := { description_lines_count := some 3 }

/-- A sparse repository record missing all four counts. -/
def rSparse : RepositoryData := { name := "sparse", forkCount := some 1 }

/-- The configured card's height is the pipeline card height, reduced by
the 30-unit title band exactly when the title is hidden. -/
theorem theCard_height (r : RepositoryData) (o : RepoCardOptions) (rand : Nat → Q) :
    (theCard r o rand).height =
      cardHeight r o - (if shouldHideTitle o = true then 30 else 0) := by
  simp only [theCard, Card.setCSS, Card.setHideBorder, Card.setHideTitle,
    Card.disableAnimations]
  split_ifs <;> simp_all

/-- C10: for every age_metric value other than "created" and "first" —
including unrecognized strings and the empty string — the composer selects
the last-push timestamp for the age badge. -/
theorem age_metric_fallback_pushed (r : RepositoryData) (o : RepoCardOptions)
    (h1 : o.age_metric ≠ "created") (h2 : o.age_metric ≠ "first") :
    ageIso r o = r.pushedAt := by
  unfold ageIso selectAgeIso
  simp [h1, h2]

/-- Witness for C10 at the empty age metric. -/
theorem age_metric_fallback_pushed_witness :
    ("" : String) ≠ "created" ∧ ("" : String) ≠ "first" ∧
      ageIso rBug { age_metric := "" } = some 0 :=
  ⟨by decide, by decide,
    (age_metric_fallback_pushed rBug { age_metric := "" } (by decide) (by decide)).trans rfl⟩

/-- C2: when both the title and the text are hidden, the rendered card's
height equals the fixed compact formula of twice the 12-unit padding plus
the 16-plus-8-unit icon row, 48 units, independent of the description and
of hide_border. -/
theorem compact_stats_only_height (r : RepositoryData) (o : RepoCardOptions) (rand : Nat → Q)
    (h1 : shouldHideTitle o = true) (h2 : shouldHideText o = true) :
    (theCard r o rand).height = 48 := by
  have hc : compactStatsOnlyLayout o = true := by
    simp [compactStatsOnlyLayout, h1, h2]
  rw [theCard_height]
  simp [cardHeight, contentHeight, h1, hc]

/-- Witness for C2 on a record with a long description and a border-hiding
stats-only configuration. -/
theorem compact_stats_only_height_witness :
    shouldHideTitle oStats = true ∧ shouldHideText oStats = true ∧
      (theCard r200 oStats zeroRand).height = 48 :=
  ⟨by decide, by decide, compact_stats_only_height r200 oStats zeroRand (by decide) (by decide)⟩

/-- C4: the age label renders the single largest whole time unit of at
least one — years, else months, else days, else hours, else minutes, else
seconds, with a 365-day year and a 30-day month; an elapsed time of 400
days yields 1y; and a missing timestamp yields no age badge even though
show_age is set. -/
theorem age_label_largest_unit :
    (∀ now : Int, formatAge none now = "")
    ∧ (∀ t now : Int, formatAge (some t) now = formatAgeSec (elapsedSec t now))
    ∧ (∀ sec : Nat,
        formatAgeSec sec =
          if 365 * 24 * 3600 ≤ sec then toString (sec / (365 * 24 * 3600)) ++ "y"
          else if 30 * 24 * 3600 ≤ sec then toString (sec / (30 * 24 * 3600)) ++ "mo"
          else if 24 * 3600 ≤ sec then toString (sec / (24 * 3600)) ++ "d"
          else if 3600 ≤ sec then toString (sec / 3600) ++ "h"
          else if 60 ≤ sec then toString (sec / 60) ++ "m"
          else toString sec ++ "s")
    ∧ formatAge (some 0) (400 * 86400 * 1000) = "1y"
    ∧ (∀ (r : RepositoryData) (o : RepoCardOptions) (now : Int),
        ageIso r o = none →
          svgAge r o now = "" ∧ rowFinal r o now = rowAfterPrs r o) := by
  refine ⟨fun _ => rfl, fun _ _ => rfl, ?_, by decide, ?_⟩
  · intro sec
    have e1 : (1 ≤ sec / (365 * 24 * 3600)) ↔ (365 * 24 * 3600 ≤ sec) :=
      Nat.one_le_div_iff (by norm_num)
    have e2 : (1 ≤ sec / (30 * 24 * 3600)) ↔ (30 * 24 * 3600 ≤ sec) :=
      Nat.one_le_div_iff (by norm_num)
    have e3 : (1 ≤ sec / (24 * 3600)) ↔ (24 * 3600 ≤ sec) :=
      Nat.one_le_div_iff (by norm_num)
    have e4 : (1 ≤ sec / 3600) ↔ (3600 ≤ sec) := Nat.one_le_div_iff (by norm_num)
    have e5 : (1 ≤ sec / 60) ↔ (60 ≤ sec) := Nat.one_le_div_iff (by norm_num)
    simp only [formatAgeSec, e1, e2, e3, e4, e5]
  · intro r o now h
    have hl : ageLabel r o now = "" := by
      unfold ageLabel
      rw [h]
      rfl
    constructor
    · unfold svgAge
      rw [hl]
      simp
    · unfold rowFinal
      rw [hl]
      simp

/-- Witness for C4 on a record whose selected timestamp is missing. -/
theorem age_label_largest_unit_witness :
    ageIso rShort oAge = none ∧ svgAge rShort oAge 0 = ""
      ∧ rowFinal rShort oAge 0 = rowAfterPrs rShort oAge :=
  ⟨by decide,
    (age_label_largest_unit.2.2.2.2 rShort oAge 0 (by decide)).1,
    (age_label_largest_unit.2.2.2.2 rShort oAge 0 (by decide)).2⟩

/-- The language node markup is never the empty string. -/
theorem createLanguageNode_ne_empty (n c : String) : createLanguageNode n c ≠ "" := by
  unfold createLanguageNode
  intro h
  have hl := congrArg String.length h
  simp +decide [String.length_append] at hl

/-- The language item is present exactly when a primary language is known. -/
theorem rowA_items (r : RepositoryData) :
    (rowA r).1 = if r.primaryLanguage.isSome then [svgLanguage r] else [] := by
  unfold rowA
  rcases h : r.primaryLanguage with _ | l
  · simp [svgLanguage, h]
  · have hne : svgLanguage r ≠ "" := by
      rw [svgLanguage, h]
      exact createLanguageNode_ne_empty _ _
    simp [h, bne_iff_ne, hne]

/-- C8: the stat row is built in the fixed order language swatch and name
(only if a primary language is known), star count, fork count, then issues,
PRs and age, with issues and PRs included only when their show-flag is set
and their count is nonzero, and age only when show_age is set and an age
label resolved. -/
theorem stat_row_fixed_order (r : RepositoryData) (o : RepoCardOptions) (now : Int) :
    (rowFinal r o now).1 =
      (if r.primaryLanguage.isSome then [svgLanguage r] else [])
        ++ [svgStars r, svgForks r]
        ++ (if o.show_issues = true ∧ 0 < issuesCount r then [svgIssues r o] else [])
        ++ (if o.show_prs = true ∧ 0 < prsCount r then [svgPRs r o] else [])
        ++ (if o.show_age = true ∧ ageLabel r o now ≠ "" then [svgAge r o now] else []) := by
  rw [← rowA_items]
  unfold rowFinal rowAfterPrs rowAfterIssues rowAfterForks
  split_ifs <;> simp_all [bne_iff_ne]

/-- Witness for C8 on the representative record with all toggles set. -/
theorem stat_row_fixed_order_witness :
    (rowFinal rFix { show_issues := true, show_prs := true, show_age := true } 5000).1 =
      [svgLanguage rFix, svgStars rFix, svgForks rFix,
        svgIssues rFix { show_issues := true, show_prs := true, show_age := true },
        svgPRs rFix { show_issues := true, show_prs := true, show_age := true },
        svgAge rFix { show_issues := true, show_prs := true, show_age := true } 5000] := by
  rw [stat_row_fixed_order]
  decide

/-- C3 counterexample: with description_lines_count set to 3 and a one-word
description, the wrapper produces a single line but the composer tracks 3
and computes height 150, not the 110 plus 10 the claim's actual-line-count
formula yields. -/
theorem description_line_tracking_counterexample :
    (multiLineDescription rShort oThreeLines).length = 1
    ∧ descriptionLinesCount rShort oThreeLines = 3
    ∧ contentHeight rShort oThreeLines = 150
    ∧ contentHeight rShort oThreeLines ≠ 110 + 10 * 1 :=
  ⟨by decide, by decide, by decide, by decide⟩

/-- C3 (amended): the composer tracks the actual wrapped line count only
when description_lines_count is unset, and the clamped configured value
when it is set, regardless of the wrapped count; the height is 120 when
the tracked count exceeds 1 and 110 otherwise, plus 10 units per tracked
line; a 200-character description with the option unset yields exactly 3
lines, the last ending in an ellipsis, and height 150. -/
theorem description_line_tracking_amended :
    (∀ (r : RepositoryData) (o : RepoCardOptions), shouldHideText o = false →
        descriptionLinesCount r o =
          (if dlcIsSet o then descriptionMaxLines o
           else (multiLineDescription r o).length)
        ∧ contentHeight r o =
            (if 1 < descriptionLinesCount r o then 120 else 110)
              + (descriptionLinesCount r o : Int) * 10)
    ∧ desc200.length = 200
    ∧ (multiLineDescription r200 {}).length = 3
    ∧ strEndsWith ((multiLineDescription r200 {}).getLastD "") "..." = true
    ∧ descriptionLinesCount r200 {} = 3
    ∧ contentHeight r200 {} = 150 := by
  refine ⟨?_, by decide, by decide, by decide, by decide, by decide⟩
  intro r o h
  have hc : compactStatsOnlyLayout o = false := by
    simp [compactStatsOnlyLayout, h]
  constructor
  · simp [descriptionLinesCount, h]
  · by_cases hn : descriptionLinesCount r o = 0
    · simp [contentHeight, hasDescription, hc, h, hn]
    · simp [contentHeight, hasDescription, hc, h, hn, bne_iff_ne]

/-- Witness for C3's amended tracking equation at the 200-character record. -/
theorem description_line_tracking_amended_witness :
    shouldHideText ({} : RepoCardOptions) = false
    ∧ descriptionLinesCount r200 {} =
        (if dlcIsSet ({} : RepoCardOptions) then descriptionMaxLines {}
         else (multiLineDescription r200 {}).length) :=
  ⟨by decide, (description_line_tracking_amended.1 r200 {} (by decide)).1⟩

/-- C9 counterexample: a record missing its star count renders the star
label as NaN, not as the zero label. -/
theorem missing_star_count_not_zero :
    rSparse.starCount = none
    ∧ totalStars rSparse = "NaN"
    ∧ kFormatterOpt (some 0) = "0"
    ∧ totalStars rSparse ≠ kFormatterOpt (some 0) :=
  ⟨rfl, by decide, by decide, by decide⟩

/-- C9 (amended): the composer always succeeds, returning one complete SVG
document, and missing open-issue and open-PR counts are treated as zero;
missing star and fork counts are not defaulted to zero but render as a NaN
label. -/
theorem sparse_record_renders_amended :
    (∀ (r : RepositoryData) (o : RepoCardOptions) (now : Int) (rand : Nat → Q),
        ∃ mid : String, renderRepoCard r o now rand = "<svg" ++ mid ++ "</svg>")
    ∧ (∀ r : RepositoryData,
        totalIssues r = kFormatter (r.openIssuesCount.getD 0)
        ∧ totalPRs r = kFormatter (r.openPrsCount.getD 0))
    ∧ (∀ r : RepositoryData, r.starCount = none → totalStars r = "NaN")
    ∧ (∀ r : RepositoryData, r.forkCount = none → totalForks r = "NaN") := by
  refine ⟨?_, fun r => ⟨rfl, rfl⟩, ?_, ?_⟩
  · intro r o now rand
    exact ⟨Card.renderMid (theCard r o rand) (cardBodyOf r o now rand), rfl⟩
  · intro r h
    unfold totalStars
    rw [h]
    rfl
  · intro r h
    unfold totalForks
    rw [h]
    rfl

/-- Witness for C9 on the sparse record. -/
theorem sparse_record_renders_amended_witness :
    rSparse.starCount = none
    ∧ totalStars rSparse = "NaN"
    ∧ ∃ mid : String, renderRepoCard rSparse {} 0 zeroRand = "<svg" ++ mid ++ "</svg>" :=
  ⟨rfl, sparse_record_renders_amended.2.2.1 rSparse rfl,
    sparse_record_renders_amended.1 rSparse {} 0 zeroRand⟩

/-- Reflexivity of the boolean character-list equality. -/
theorem listEqB_refl : ∀ l : List Char, listEqB l l = true
  | [] => rfl
  | a :: as => by simp [listEqB, listEqB_refl as]

/-- Reflexivity of the boolean string equality. -/
theorem strEqB_refl (s : String) : strEqB s s = true := listEqB_refl s.data

/-- A false boolean string equality separates the strings. -/
theorem ne_of_strEqB_eq_false {s t : String} (h : strEqB s t = false) : s ≠ t := by
  intro he
  rw [he, strEqB_refl] at h
  cases h

/-- Only the embers and sparks branches consult the randomness source. -/
theorem getAnimationStyle_rand_congr (style : String) (colors : CardColors)
    (w h : Q) (wp : WaveParams) (rand1 rand2 : Nat → Q)
    (h1 : style ≠ "embers") (h2 : style ≠ "sparks") :
    getAnimationStyle style colors w h wp rand1 =
      getAnimationStyle style colors w h wp rand2 := by
  unfold getAnimationStyle
  split_ifs <;> simp_all

/-- The animation data of a render is random-source independent away from
embers and sparks. -/
theorem animationDataOf_rand_congr (r : RepositoryData) (o : RepoCardOptions)
    (rand1 rand2 : Nat → Q)
    (h1 : o.animation_style ≠ "embers") (h2 : o.animation_style ≠ "sparks") :
    animationDataOf r o rand1 = animationDataOf r o rand2 := by
  unfold animationDataOf
  split_ifs with hA
  · exact getAnimationStyle_rand_congr _ _ _ _ _ _ _ h1 h2
  · rfl

/-- The installed style rules are random-source independent away from
embers and sparks. -/
theorem cardCssOf_rand_congr (r : RepositoryData) (o : RepoCardOptions)
    (rand1 rand2 : Nat → Q)
    (h1 : o.animation_style ≠ "embers") (h2 : o.animation_style ≠ "sparks") :
    cardCssOf r o rand1 = cardCssOf r o rand2 := by
  unfold cardCssOf
  rw [animationDataOf_rand_congr r o rand1 rand2 h1 h2]

/-- The configured card is random-source independent away from embers and
sparks. -/
theorem theCard_rand_congr (r : RepositoryData) (o : RepoCardOptions)
    (rand1 rand2 : Nat → Q)
    (h1 : o.animation_style ≠ "embers") (h2 : o.animation_style ≠ "sparks") :
    theCard r o rand1 = theCard r o rand2 := by
  unfold theCard
  rw [cardCssOf_rand_congr r o rand1 rand2 h1 h2]

/-- The wave title is random-source independent away from embers and
sparks. -/
theorem customWaveTitle_rand_congr (r : RepositoryData) (o : RepoCardOptions)
    (rand1 rand2 : Nat → Q)
    (h1 : o.animation_style ≠ "embers") (h2 : o.animation_style ≠ "sparks") :
    customWaveTitle r o rand1 = customWaveTitle r o rand2 := by
  unfold customWaveTitle
  rw [theCard_rand_congr r o rand1 rand2 h1 h2]

/-- The card body is random-source independent away from embers and
sparks. -/
theorem cardBodyOf_rand_congr (r : RepositoryData) (o : RepoCardOptions)
    (now : Int) (rand1 rand2 : Nat → Q)
    (h1 : o.animation_style ≠ "embers") (h2 : o.animation_style ≠ "sparks") :
    cardBodyOf r o now rand1 = cardBodyOf r o now rand2 := by
  unfold cardBodyOf cardBodyPre
  rw [animationDataOf_rand_congr r o rand1 rand2 h1 h2,
    customWaveTitle_rand_congr r o rand1 rand2 h1 h2]

/-- C5 (amended): the composition is a pure function of the repository
record, the options, and the clock reading consumed by the age computation;
for every animation style other than embers and sparks the output is
byte-identical across arbitrary random sources. -/
theorem render_random_independent (r : RepositoryData) (o : RepoCardOptions)
    (now : Int) (rand1 rand2 : Nat → Q)
    (h1 : o.animation_style ≠ "embers") (h2 : o.animation_style ≠ "sparks") :
    renderRepoCard r o now rand1 = renderRepoCard r o now rand2 := by
  unfold renderRepoCard
  rw [theCard_rand_congr r o rand1 rand2 h1 h2,
    cardBodyOf_rand_congr r o now rand1 rand2 h1 h2]

/-- Witness for C5's amended statement at two distinct random sources. -/
theorem render_random_independent_witness :
    renderRepoCard rFix {} 0 zeroRand = renderRepoCard rFix {} 0 (fun _ => 1) :=
  render_random_independent rFix {} 0 zeroRand (fun _ => 1) (by decide) (by decide)

/-- C5 counterexample: one fixed record, option bag and random source, a
non-embers non-sparks style, but two clock readings, render different
bytes — the clock consumed by the age badge is a further source of
cross-call variation beyond the embers and sparks randomness. -/
theorem render_not_clock_independent :
    oAge.animation_style ≠ "embers" ∧ oAge.animation_style ≠ "sparks"
    ∧ renderRepoCard rBug oAge 1000 zeroRand ≠ renderRepoCard rBug oAge 2000 zeroRand :=
  ⟨by decide, by decide, ne_of_strEqB_eq_false (by decide)⟩

/-- A head match survives appending to the right. -/
theorem matchAt_append : ∀ (pat s t : List Char),
    matchAt pat s = true → matchAt pat (s ++ t) = true
  | [], _, _, _ => rfl
  | _ :: _, [], _, h => by cases h
  | a :: as, b :: bs, t, h => by
    simp only [matchAt, Bool.and_eq_true] at h
    simp only [List.cons_append, matchAt, Bool.and_eq_true]
    exact ⟨h.1, matchAt_append as bs t h.2⟩

/-- The empty pattern occurs everywhere. -/
theorem containsSubL_nil : ∀ t : List Char, containsSubL [] t = true
  | [] => rfl
  | _ :: _ => by simp [containsSubL, matchAt]

/-- An occurrence survives appending to the right. -/
theorem containsSubL_append_right : ∀ (pat s t : List Char),
    containsSubL pat s = true → containsSubL pat (s ++ t) = true
  | pat, [], t, h => by
    cases pat with
    | nil => exact containsSubL_nil t
    | cons a as => cases h
  | pat, c :: cs, t, h => by
    simp only [containsSubL, Bool.or_eq_true] at h
    simp only [List.cons_append, containsSubL, Bool.or_eq_true]
    rcases h with h | h
    · exact Or.inl (matchAt_append pat (c :: cs) t h)
    · exact Or.inr (containsSubL_append_right pat cs t h)

/-- An occurrence survives prepending to the left. -/
theorem containsSubL_append_left : ∀ (pat s t : List Char),
    containsSubL pat t = true → containsSubL pat (s ++ t) = true
  | _, [], _, h => h
  | pat, c :: cs, t, h => by
    simp only [List.cons_append, containsSubL, Bool.or_eq_true]
    exact Or.inr (containsSubL_append_left pat cs t h)

/-- String-level containment monotonicity: prepending. -/
theorem containsSub_append_left (pat s t : String) (h : containsSub pat t = true) :
    containsSub pat (s ++ t) = true :=
  containsSubL_append_left pat.data s.data t.data h

/-- String-level containment monotonicity: appending. -/
theorem containsSub_append_right (pat s t : String) (h : containsSub pat s = true) :
    containsSub pat (s ++ t) = true :=
  containsSubL_append_right pat.data s.data t.data h

/-- C6: refuted on the code — the bubbles wave-title path embeds the
display header characters verbatim, so a repository named a&b renders a
bare ampersand as element text inside the emitted document, where entity
escaping would have produced an amp entity; the wrapped description lines
are escaped, but the wave-title characters are not. -/
theorem wave_title_unescaped_at_failing_input :
    encodeHTML "a&b" = "a&amp;b"
    ∧ containsSub ">&<" (wrapTextInWave "a&b" 0 (1/20) false) = true
    ∧ containsSub ">&<" (customWaveTitle rBug oBug zeroRand) = true
    ∧ containsSub ">&<" (renderRepoCard rBug oBug 0 zeroRand) = true := by
  refine ⟨by decide, by decide, by decide, ?_⟩
  unfold renderRepoCard Card.render Card.renderMid cardBodyOf
  apply containsSub_append_right
  apply containsSub_append_left
  apply containsSub_append_right
  apply containsSub_append_left
  apply containsSub_append_right
  apply containsSub_append_left
  decide

/-- Disabled animations or the none style yield no animation flag. -/
theorem hasAnimation_off (o : RepoCardOptions)
    (h : o.disable_animations = true ∨ o.animation_style = "none") :
    hasAnimation o = false := by
  unfold hasAnimation
  rcases h with h | h <;> simp [h]

/-- Disabled animations or the none style yield the empty animation data. -/
theorem animationDataOf_off (r : RepositoryData) (o : RepoCardOptions) (rand : Nat → Q)
    (h : o.disable_animations = true ∨ o.animation_style = "none") :
    animationDataOf r o rand = { css := "", svg := "" } := by
  unfold animationDataOf
  rw [hasAnimation_off o h]
  simp

/-- Disabled animations or the none style disable the wave title. -/
theorem useBubblesWave_off (o : RepoCardOptions)
    (h : o.disable_animations = true ∨ o.animation_style = "none") :
    useBubblesWave o = false := by
  unfold useBubblesWave
  rcases h with h | h <;> simp [h]

/-- Disabled animations or the none style disable the wave-title rule. -/
theorem bubblesHideRule_off (o : RepoCardOptions)
    (h : o.disable_animations = true ∨ o.animation_style = "none") :
    bubblesHideRule o = "" := by
  unfold bubblesHideRule
  rw [useBubblesWave_off o h]
  simp

/-- Disabled animations or the none style yield no wave title markup. -/
theorem customWaveTitle_off (r : RepositoryData) (o : RepoCardOptions) (rand : Nat → Q)
    (h : o.disable_animations = true ∨ o.animation_style = "none") :
    customWaveTitle r o rand = "" := by
  unfold customWaveTitle
  rw [useBubblesWave_off o h]
  simp

/-- C1: getAnimationStyle returns the empty stylesheet and empty markup for
the none style and every unrecognized style name, never an error; and a
render with disable_animations or the none style carries empty animation
data, is unchanged when every animation tuning parameter is reset, and its
document holds no animation-layer group and no keyframe rule. -/
theorem animation_none_no_leak :
    (∀ (style : String) (colors : CardColors) (w h : Q) (wp : WaveParams)
        (rand : Nat → Q), style ∉ knownAnimationStyles →
        getAnimationStyle style colors w h wp rand = { css := "", svg := "" })
    ∧ (∀ (r : RepositoryData) (o : RepoCardOptions) (rand : Nat → Q),
        o.disable_animations = true ∨ o.animation_style = "none" →
        animationDataOf r o rand = { css := "", svg := "" })
    ∧ (∀ (r : RepositoryData) (o : RepoCardOptions) (now : Int) (rand : Nat → Q),
        o.disable_animations = true ∨ o.animation_style = "none" →
        renderRepoCard r o now rand =
          renderRepoCard r { o with animation_style := "none", wave_speed := 2, wave_amplitude := 3, wave_delay := 1/20, color_morph := false } now rand)
    ∧ containsSub "animation-layer" (renderRepoCard rFix oNoAnim1 0 zeroRand) = false
    ∧ containsSub "@keyframes" (renderRepoCard rFix oNoAnim1 0 zeroRand) = false
    ∧ containsSub "animation-layer" (renderRepoCard rFix oNoAnim2 0 zeroRand) = false
    ∧ containsSub "@keyframes" (renderRepoCard rFix oNoAnim2 0 zeroRand) = false := by
  refine ⟨?_, ?_, ?_, by decide, by decide, by decide, by decide⟩
  · intro style colors w h wp rand hns
    unfold getAnimationStyle
    split_ifs <;> simp_all [knownAnimationStyles]
  · intro r o rand h
    exact animationDataOf_off r o rand h
  · intro r o now rand h
    set o' : RepoCardOptions := { o with animation_style := "none", wave_speed := 2, wave_amplitude := 3, wave_delay := 1/20, color_morph := false } with ho'
    have h' : o'.disable_animations = true ∨ o'.animation_style = "none" :=
      Or.inr (by rw [ho'])
    have e1 := animationDataOf_off r o rand h
    have e2 := animationDataOf_off r o' rand h'
    have c1 := customWaveTitle_off r o rand h
    have c2 := customWaveTitle_off r o' rand h'
    have b1 := bubblesHideRule_off o h
    have b2 := bubblesHideRule_off o' h'
    have hcss : cardCssOf r o rand = cardCssOf r o' rand := by
      unfold cardCssOf
      rw [e1, e2, b1, b2]
      rfl
    have hcard : theCard r o rand = theCard r o' rand := by
      unfold theCard
      rw [hcss]
      rfl
    have hbody : cardBodyOf r o now rand = cardBodyOf r o' now rand := by
      unfold cardBodyOf cardBodyPre
      rw [e1, e2, c1, c2]
      rfl
    unfold renderRepoCard
    rw [hcard, hbody]

/-- Witness for C1 at an unknown style name and concrete disabled and
none-style renders. -/
theorem animation_none_no_leak_witness :
    "garbage" ∉ knownAnimationStyles
    ∧ getAnimationStyle "garbage" defaultRepocardColors 400 150 {} zeroRand
        = { css := "", svg := "" }
    ∧ animationDataOf rFix oNoAnim1 zeroRand = { css := "", svg := "" }
    ∧ renderRepoCard rFix oNoAnim2 0 zeroRand =
        renderRepoCard rFix { oNoAnim2 with animation_style := "none", wave_speed := 2, wave_amplitude := 3, wave_delay := 1/20, color_morph := false } 0 zeroRand :=
  ⟨by decide,
    animation_none_no_leak.1 "garbage" defaultRepocardColors 400 150 {} zeroRand (by decide),
    animation_none_no_leak.2.1 rFix oNoAnim1 zeroRand (Or.inl rfl),
    animation_none_no_leak.2.2.1 rFix oNoAnim2 0 zeroRand (Or.inr rfl)⟩

/-- The configured card hides its title exactly when the derived flag is
set. -/
theorem theCard_hideTitle (r : RepositoryData) (o : RepoCardOptions) (rand : Nat → Q) :
    (theCard r o rand).hideTitle = shouldHideTitle o := by
  simp only [theCard, Card.setCSS, Card.setHideBorder, Card.setHideTitle,
    Card.disableAnimations]
  split_ifs <;> simp_all

/-- C7: stats_only produces output containing no title element and no
description element — exactly as if hide_title and hide_text had both been
set — regardless of the other options. -/
theorem stats_only_hides_title_and_text (r : RepositoryData) (o : RepoCardOptions)
    (now : Int) (rand : Nat → Q) (h : o.stats_only = true) :
    Card.titleGroup (theCard r o rand) = ""
    ∧ customWaveTitle r o rand = ""
    ∧ descBlockOf r o = ""
    ∧ renderRepoCard r o now rand =
        renderRepoCard r { o with stats_only := false, hide_title := true, hide_text := true } now rand := by
  have hT0 : shouldHideTitle o = true := by simp [shouldHideTitle, h]
  have hX0 : shouldHideText o = true := by simp [shouldHideText, h]
  refine ⟨?_, ?_, ?_, ?_⟩
  · simp [Card.titleGroup, theCard_hideTitle, hT0]
  · simp [customWaveTitle, hT0]
  · simp [descBlockOf, hasDescription, hX0]
  · set o' : RepoCardOptions := { o with stats_only := false, hide_title := true, hide_text := true } with ho'
    have hT : shouldHideTitle o' = shouldHideTitle o := by
      rw [ho']
      simp [shouldHideTitle, h]
    have hX : shouldHideText o' = shouldHideText o := by
      rw [ho']
      simp [shouldHideText, h]
    have hC : compactStatsOnlyLayout o' = compactStatsOnlyLayout o := by
      unfold compactStatsOnlyLayout
      rw [hT, hX]
    have hdlc : descriptionLinesCount r o' = descriptionLinesCount r o := by
      unfold descriptionLinesCount
      rw [hX]
      try rfl
    have hsvg : descriptionSvg r o' = descriptionSvg r o := by
      unfold descriptionSvg
      rw [hX]
      try rfl
    have hhd : hasDescription r o' = hasDescription r o := by
      unfold hasDescription
      rw [hX, hdlc]
      try rfl
    have hch : contentHeight r o' = contentHeight r o := by
      unfold contentHeight
      rw [hC, hhd, hdlc]
      try rfl
    have hcardh : cardHeight r o' = cardHeight r o := by
      unfold cardHeight
      rw [hT, hC, hch]
      try rfl
    have hsx : statTranslateX o' = statTranslateX o := by
      unfold statTranslateX
      rw [hC]
      try rfl
    have hsy : statTranslateY r o' = statTranslateY r o := by
      unfold statTranslateY
      rw [hhd, hch, hC]
      try rfl
    have hanim : animationDataOf r o' rand = animationDataOf r o rand := by
      unfold animationDataOf
      rw [hcardh]
      try rfl
    have hcss : cardCssOf r o' rand = cardCssOf r o rand := by
      unfold cardCssOf
      rw [hanim]
      try rfl
    have hcard : theCard r o' rand = theCard r o rand := by
      unfold theCard
      rw [hcss, hcardh, hT, hC]
      try rfl
    have hwave : customWaveTitle r o' rand = customWaveTitle r o rand := by
      unfold customWaveTitle
      rw [hT, hcard]
      try rfl
    have hdb : descBlockOf r o' = descBlockOf r o := by
      unfold descBlockOf
      rw [hhd, hsvg]
      try rfl
    have hpost : cardBodyPost r o' now = cardBodyPost r o now := by
      unfold cardBodyPost
      rw [hdb, hsx, hsy]
      try rfl
    have hpre : cardBodyPre r o' rand = cardBodyPre r o rand := by
      unfold cardBodyPre
      rw [hanim]
      try rfl
    have hbody : cardBodyOf r o' now rand = cardBodyOf r o now rand := by
      unfold cardBodyOf
      rw [hpre, hwave, hpost]
      try rfl
    unfold renderRepoCard
    rw [hcard, hbody]
    try rfl

/-- Witness for C7 on the representative record with borders hidden. -/
theorem stats_only_hides_title_and_text_witness :
    oStats.stats_only = true
    ∧ Card.titleGroup (theCard rFix oStats zeroRand) = ""
    ∧ descBlockOf rFix oStats = ""
    ∧ renderRepoCard rFix oStats 0 zeroRand =
        renderRepoCard rFix { oStats with stats_only := false, hide_title := true, hide_text := true } 0 zeroRand :=
  ⟨rfl, (stats_only_hides_title_and_text rFix oStats 0 zeroRand rfl).1,
    (stats_only_hides_title_and_text rFix oStats 0 zeroRand rfl).2.2.1,
    (stats_only_hides_title_and_text rFix oStats 0 zeroRand rfl).2.2.2⟩
